import Mathlib

/-!
Shallow embedding of the per-connection attestation state tracker of
`src/libimcv/plugins/imv_attestation/imv_attestation_state.c` and of the
transaction dispatcher of `src/charon/sa/transactions/transaction.c`,
together with theorems settling the specification claims about them.

Machine integers are modelled as `Nat` with an explicit `% 2 ^ w` where the
C width matters (`u_int16_t` request ids), and as `Int` where the C type is
a signed `int` (`file_id`).  C strings / `chunk_t` values are modelled as
`List Char` (for parsing) and `String` (for stored table text).
-/

namespace ImvAttestation

/-- One row of the static `reasons[]` table (`struct entry_t`): a language
tag and the reason text in that language. -/
structure ReasonEntry where
  lang : String
  string : String
deriving DecidableEq, Repr

/-- The `en` row of the static `reasons[]` table. -/
def reasonEn : ReasonEntry :=
  { lang := "en",
    string := "IMV Attestation: Non-matching file measurement/s or invalid TPM Quote signature" }

/-- The `mn` row of the static `reasons[]` table. -/
def reasonMn : ReasonEntry :=
  { lang := "mn",
    string := "IMV Attestation: Файлуудын хэмжилт зөрсөн эсвэл буруу TPM Quote гарын үсэг" }

/-- The `de` row of the static `reasons[]` table. -/
def reasonDe : ReasonEntry :=
  { lang := "de",
    string := "IMV Attestation: Falsche Datei Messung/en oder TPM Quote Unterschrift ist ungültig" }

/-- The static table of multi-lingual reason string entries, exactly the
three rows of `reasons[]` in the source (`en` first, then `mn`, `de`). -/
def reasons : List ReasonEntry := [reasonEn, reasonMn, reasonDe]

/-- Modelled from the spec: `eat_whitespace` of `utils/lexparser.c` is not
under `src/`; per §4.2 step 2 it skips the leading whitespace (spaces and
tabs) of the remaining input in place.  Its boolean result — "input not yet
exhausted" — is recovered below by testing the returned list for emptiness. -/
def eatWhitespace (l : List Char) : List Char :=
  l.dropWhile (fun c => c = ' ' || c = '\t')

/-- Modelled from the spec: `extract_token` of `utils/lexparser.c` is not
under `src/`; per §4.2 step 2 it extracts the next token up to the first
occurrence of the termination character, consuming the token and the
terminator, and fails — leaving the source unchanged, as the caller's
"last entry in a comma-separated list or single entry" fallback relies on —
when the terminator does not occur. -/
def extractToken (sep : Char) : List Char → Option (List Char × List Char)
  | [] => none
  | c :: rest =>
    if c = sep then
      some ([], rest)
    else
      match extractToken sep rest with
      | some (tok, rest') => some (c :: tok, rest')
      | none => none

/-- The trailing-trim loop of `get_reason_string` (lines 170-174): starting
from the last character, the token's length is decreased while the last
character is a space `' '` (only spaces, not tabs, are compared). -/
def trimTrailingSpaces (l : List Char) : List Char :=
  (l.reverse.dropWhile (fun c => c = ' ')).reverse

/-- The inner `for` loop of `get_reason_string` (lines 176-186): the first
table entry whose tag equals the trimmed token byte-for-byte
(`chunk_equals`). -/
def findReason (tok : List Char) : Option ReasonEntry :=
  reasons.find? (fun e => e.lang.toList == tok)

/-- The pair written through `*reason_string` / `*reason_language`. -/
def reasonResult (e : ReasonEntry) : String × String :=
  (e.string, e.lang)

/-- The default result of lines 190-193: `reasons[0]`. -/
def defaultReason : String × String :=
  reasonResult (reasons.headD { lang := "", string := "" })

/-- The `while (eat_whitespace(...))` loop of `get_reason_string`
(lines 153-195), with an explicit fuel parameter because the C loop does
not terminate on every input: `none` means the fuel ran out with the loop
still running, `some r` means the function returned with `r` written
through the two output parameters (the C function returns `TRUE` whenever
it returns at all).  Each iteration: skip leading whitespace; exit the
loop (returning the default entry) if the input is exhausted; split off
the next comma-terminated token, or take the whole remaining input as the
token — without consuming it — when no comma remains; trim trailing
spaces; return the first matching table entry, else continue on the rest. -/
def getReasonStringFuel : Nat → List Char → Option (String × String)
  | 0, _ => none
  | fuel + 1, preferred_language =>
    let pl := eatWhitespace preferred_language
    if pl.isEmpty then
      some defaultReason
    else
      let (pref_lang, rest) :=
        match extractToken ',' pl with
        | some (tok, rest) => (tok, rest)
        | none => (pl, pl)
      let pref_lang := trimTrailingSpaces pref_lang
      match findReason pref_lang with
      | some e => some (reasonResult e)
      | none => getReasonStringFuel fuel rest

end ImvAttestation

namespace ImvAttestation

/-- 2 ^ 16, the modulus of the `u_int16_t` request-id counter. -/
def u16Mod : Nat := 65536

/-- A `struct file_meas_request_t` entry: the issued `u_int16_t` id, the
`int` file id and the directory flag. -/
structure FileMeasRequest where
  id : Nat
  file_id : Int
  is_dir : Bool
deriving DecidableEq, Repr

/-- Modelled from the spec: `pts_qualifier_t` is declared in a header not
under `src/`; per §3 it is a record of the three fields `kernel`,
`sub_component` and `type`, compared field by field.  The fields are kept
abstract as naturals. -/
structure PtsQualifier where
  kernel : Nat
  sub_component : Nat
  type : Nat
deriving DecidableEq, Repr

/-- A `struct comp_evid_request_t` entry: vendor id, qualifier and
functional component name (`pts_ita_funct_comp_name_t`, an enumeration
kept abstract as a natural). -/
structure CompEvidRequest where
  vendor_id : Nat
  qualifier : PtsQualifier
  name : Nat
deriving DecidableEq, Repr

/-- TNC constants from headers not under `src/`; their concrete values are
irrelevant to every claim, only that `create` stores them. -/
def TNC_CONNECTION_STATE_CREATE : Nat := 0

/-- Initial handshake state stored by `create` (`IMV_ATTESTATION_STATE_INIT`). -/
def IMV_ATTESTATION_STATE_INIT : Nat := 0

/-- `TNC_IMV_ACTION_RECOMMENDATION_NO_RECOMMENDATION` (value per TNC IF-IMV). -/
def TNC_IMV_ACTION_RECOMMENDATION_NO_RECOMMENDATION : Nat := 3

/-- `TNC_IMV_EVALUATION_RESULT_DONT_KNOW` (value per TNC IF-IMV). -/
def TNC_IMV_EVALUATION_RESULT_DONT_KNOW : Nat := 4

/-- The mutable fields of `struct private_imv_attestation_state_t`.  The
`pts` handle is an external collaborator with no observable state in this
core and is omitted; every other field is carried. -/
structure AttestationState where
  connection_id : Nat
  state : Nat
  handshake_state : Nat
  recommendation : Nat
  eval : Nat
  file_meas_request_counter : Nat
  file_meas_requests : List FileMeasRequest
  comp_evid_requests : List CompEvidRequest
  measurement_error : Bool
deriving DecidableEq, Repr

/-- `imv_attestation_state_create`: fresh state with empty registries; the
counter and the error flag are zero-initialized by `INIT`. -/
def imv_attestation_state_create (connection_id : Nat) : AttestationState :=
  { connection_id := connection_id
    state := TNC_CONNECTION_STATE_CREATE
    handshake_state := IMV_ATTESTATION_STATE_INIT
    recommendation := TNC_IMV_ACTION_RECOMMENDATION_NO_RECOMMENDATION
    eval := TNC_IMV_EVALUATION_RESULT_DONT_KNOW
    file_meas_request_counter := 0
    file_meas_requests := []
    comp_evid_requests := []
    measurement_error := false }

/-- `change_state`. -/
def change_state (this : AttestationState) (new_state : Nat) : AttestationState :=
  { this with state := new_state }

/-- `set_recommendation`. -/
def set_recommendation (this : AttestationState) (r e : Nat) : AttestationState :=
  { this with recommendation := r, eval := e }

/-- `set_handshake_state`. -/
def set_handshake_state (this : AttestationState) (new_state : Nat) : AttestationState :=
  { this with handshake_state := new_state }

/-- `add_file_meas_request`: `++this->file_meas_request_counter` on a
`u_int16_t` (hence mod 2^16), a new entry appended at the end
(`insert_last`), and the incremented counter returned. -/
def add_file_meas_request (this : AttestationState) (file_id : Int) (is_dir : Bool) :
    Nat × AttestationState :=
  let newId := (this.file_meas_request_counter + 1) % u16Mod
  (newId,
    { this with
      file_meas_request_counter := newId
      file_meas_requests :=
        this.file_meas_requests ++ [{ id := newId, file_id := file_id, is_dir := is_dir }] })

/-- Result of `check_off_file_meas_request`: the returned boolean, the
state after the call, and the values held by the `*file_id` / `*is_dir`
output parameters after the call (the C function writes them only when a
match is found, so the caller's prior values are part of the result). -/
structure CheckOffFileResult where
  found : Bool
  state : AttestationState
  file_id : Int
  is_dir : Bool
deriving DecidableEq, Repr

/-- The enumerator scan of `check_off_file_meas_request`: remove the first
entry with the given id, returning it and the remaining list. -/
def removeFirstFileMeas (id : Nat) :
    List FileMeasRequest → Option (FileMeasRequest × List FileMeasRequest)
  | [] => none
  | r :: rest =>
    if r.id = id then
      some (r, rest)
    else
      match removeFirstFileMeas id rest with
      | some (found, rest') => some (found, r :: rest')
      | none => none

/-- `check_off_file_meas_request`: scan for the first entry with matching
id; if found remove it (`remove_at` + `free`) and write its payload through
the output parameters; otherwise return `FALSE` leaving everything as is. -/
def check_off_file_meas_request (this : AttestationState) (id : Nat)
    (file_id0 : Int) (is_dir0 : Bool) : CheckOffFileResult :=
  match removeFirstFileMeas id this.file_meas_requests with
  | some (request, rest) =>
    { found := true
      state := { this with file_meas_requests := rest }
      file_id := request.file_id
      is_dir := request.is_dir }
  | none =>
    { found := false, state := this, file_id := file_id0, is_dir := is_dir0 }

/-- `get_file_meas_request_count`. -/
def get_file_meas_request_count (this : AttestationState) : Nat :=
  this.file_meas_requests.length

/-- `add_comp_evid_request`: append the entry at the end (`insert_last`). -/
def add_comp_evid_request (this : AttestationState) (vendor_id : Nat)
    (qualifier : PtsQualifier) (comp_name : Nat) : AttestationState :=
  { this with
    comp_evid_requests :=
      this.comp_evid_requests ++
        [{ vendor_id := vendor_id, qualifier := qualifier, name := comp_name }] }

/-- The match condition of the scan in `check_off_comp_evid_request`
(lines 294-298): vendor id, all three qualifier fields and the component
name must all be equal. -/
def compEvidMatches (request : CompEvidRequest) (vendor_id : Nat)
    (qualifier : PtsQualifier) (comp_name : Nat) : Bool :=
  request.vendor_id = vendor_id &&
  request.qualifier.kernel = qualifier.kernel &&
  request.qualifier.sub_component = qualifier.sub_component &&
  request.qualifier.type = qualifier.type &&
  request.name = comp_name

/-- The enumerator scan of `check_off_comp_evid_request`: remove the first
entry whose full value tuple matches. -/
def removeFirstCompEvid (vendor_id : Nat) (qualifier : PtsQualifier) (comp_name : Nat) :
    List CompEvidRequest → Option (List CompEvidRequest)
  | [] => none
  | r :: rest =>
    if compEvidMatches r vendor_id qualifier comp_name then
      some rest
    else
      match removeFirstCompEvid vendor_id qualifier comp_name rest with
      | some rest' => some (r :: rest')
      | none => none

/-- `check_off_comp_evid_request`: remove the first fully matching entry
and report whether one was found. -/
def check_off_comp_evid_request (this : AttestationState) (vendor_id : Nat)
    (qualifier : PtsQualifier) (comp_name : Nat) : Bool × AttestationState :=
  match removeFirstCompEvid vendor_id qualifier comp_name this.comp_evid_requests with
  | some rest => (true, { this with comp_evid_requests := rest })
  | none => (false, this)

/-- `get_comp_evid_request_count`. -/
def get_comp_evid_request_count (this : AttestationState) : Nat :=
  this.comp_evid_requests.length

/-- `get_measurement_error`. -/
def get_measurement_error (this : AttestationState) : Bool :=
  this.measurement_error

/-- `set_measurement_error`: writes `TRUE`, unconditionally. -/
def set_measurement_error (this : AttestationState) : AttestationState :=
  { this with measurement_error := true }

/-- One mutating call of the public interface (the pure accessors
`get_connection_id`, `get_recommendation`, `get_handshake_state`,
`get_pts`, the two counts and `get_measurement_error` do not change the
state and need no constructor here; `get_reason_string` likewise only
reads the static table).  Check-off operations carry the caller's prior
output-parameter values. -/
inductive StateOp where
  | changeState (new_state : Nat)
  | setRecommendation (r e : Nat)
  | setHandshakeState (new_state : Nat)
  | addFileMeasRequest (file_id : Int) (is_dir : Bool)
  | checkOffFileMeasRequest (id : Nat) (file_id0 : Int) (is_dir0 : Bool)
  | addCompEvidRequest (vendor_id : Nat) (qualifier : PtsQualifier) (comp_name : Nat)
  | checkOffCompEvidRequest (vendor_id : Nat) (qualifier : PtsQualifier) (comp_name : Nat)
  | setMeasurementError
deriving DecidableEq, Repr

/-- The state after one mutating call. -/
def applyOp (s : AttestationState) : StateOp → AttestationState
  | .changeState n => change_state s n
  | .setRecommendation r e => set_recommendation s r e
  | .setHandshakeState n => set_handshake_state s n
  | .addFileMeasRequest f d => (add_file_meas_request s f d).2
  | .checkOffFileMeasRequest id f0 d0 => (check_off_file_meas_request s id f0 d0).state
  | .addCompEvidRequest v q n => add_comp_evid_request s v q n
  | .checkOffCompEvidRequest v q n => (check_off_comp_evid_request s v q n).2
  | .setMeasurementError => set_measurement_error s

/-- The state after a sequence of mutating calls, first call first. -/
def runOps (s : AttestationState) : List StateOp → AttestationState
  | [] => s
  | op :: ops => runOps (applyOp s op) ops

/-- The ids returned by the `add_file_meas_request` calls of a sequence of
mutating calls, in issuance order. -/
def runOpsIds (s : AttestationState) : List StateOp → List Nat
  | [] => []
  | op :: ops =>
    match op with
    | .addFileMeasRequest f d =>
      (add_file_meas_request s f d).1 :: runOpsIds (applyOp s op) ops
    | _ => runOpsIds (applyOp s op) ops

/-- The number of `add_file_meas_request` calls in a sequence. -/
def countAdds : List StateOp → Nat
  | [] => 0
  | .addFileMeasRequest _ _ :: ops => countAdds ops + 1
  | _ :: ops => countAdds ops

/-- Iterated `add_file_meas_request` with a fixed payload, returning the
issued ids in order: the simplest shape of call sequence for exercising
the id counter alone. -/
def iterateAddIds : AttestationState → Nat → List Nat
  | _, 0 => []
  | s, n + 1 =>
    let r := add_file_meas_request s 0 false
    r.1 :: iterateAddIds r.2 n

end ImvAttestation

namespace Transactions

/-!
Embedding of `src/charon/sa/transactions/transaction.c`.  The concrete
transaction constructors (`ike_sa_init_create`, `delete_ike_sa_create`,
`dead_peer_detection_create`) live outside `src/` and only tag the result
here; the `ike_sa` handle they receive carries no information used by
`transaction_create` itself and is omitted.
-/

/-- IKEv2 exchange types as read by `message->get_exchange_type`. -/
inductive ExchangeType where
  | IKE_SA_INIT
  | IKE_AUTH
  | CREATE_CHILD_SA
  | INFORMATIONAL
  | OTHER (n : Nat)
deriving DecidableEq, Repr

/-- Protocol ids from `protocol_id_t` (header not under `src/`; standard
IKEv2 values, only their distinctness matters here). -/
def PROTO_IKE : Nat := 1

/-- `PROTO_AH`. -/
def PROTO_AH : Nat := 2

/-- `PROTO_ESP`. -/
def PROTO_ESP : Nat := 3

/-- The `REKEY_SA` notify message type (standard IKEv2 value 16393). -/
def REKEY_SA : Nat := 16393

/-- A payload of the message as seen through the iterator: its type, and
for notify / delete payloads the fields the dispatcher reads. -/
inductive Payload where
  | notifyPayload (notify_type : Nat) (protocol_id : Nat)
  | deletePayload (protocol_id : Nat)
  | otherPayload (payload_type : Nat)
deriving DecidableEq, Repr

/-- The slice of `message_t` that `transaction_create` reads. -/
structure Message where
  get_request : Bool
  message_id : Nat
  exchange_type : ExchangeType
  payloads : List Payload
deriving DecidableEq, Repr

/-- The possible results of `transaction_create`, tagged by which
constructor produced them. -/
inductive Transaction where
  | ike_sa_init (message_id : Nat)
  | delete_ike_sa (message_id : Nat)
  | dead_peer_detection (message_id : Nat)
deriving DecidableEq, Repr

/-- The `CREATE_CHILD_SA` payload loop: it looks for a `REKEY_SA` notify,
but both protocol branches are `TODO` stubs in the source and assign no
transaction, so the scan always falls through with `transaction` still
`NULL`. -/
def createChildSaScan : List Payload → Option Transaction
  | [] => none
  | p :: rest =>
    match p with
    | .notifyPayload notify_type _protocol_id =>
      if notify_type = REKEY_SA then
        createChildSaScan rest
      else
        createChildSaScan rest
    | _ => createChildSaScan rest

/-- The `INFORMATIONAL` payload loop: the first `DELETE` payload whose
protocol id is `PROTO_IKE` yields a `delete_ike_sa` transaction; any other
payload is skipped. -/
def informationalScan (message_id : Nat) : List Payload → Option Transaction
  | [] => none
  | p :: rest =>
    match p with
    | .deletePayload protocol_id =>
      if protocol_id = PROTO_IKE then
        some (.delete_ike_sa message_id)
      else
        informationalScan message_id rest
    | _ => informationalScan message_id rest

/-- `transaction_create`: `NULL` for non-requests; dispatch on the
exchange type — `IKE_SA_INIT` builds an `ike_sa_init` transaction;
`IKE_AUTH` never stands alone and yields `NULL`; `CREATE_CHILD_SA` scans
for a `REKEY_SA` notify whose handlers are stubbed out, yielding `NULL`;
`INFORMATIONAL` yields `delete_ike_sa` for an IKE delete payload, a
`dead_peer_detection` transaction for an empty message, else `NULL`. -/
def transaction_create (request : Message) : Option Transaction :=
  if !request.get_request then
    none
  else
    let message_id := request.message_id
    match request.exchange_type with
    | .IKE_SA_INIT => some (.ike_sa_init message_id)
    | .IKE_AUTH => none
    | .CREATE_CHILD_SA => createChildSaScan request.payloads
    | .INFORMATIONAL =>
      match informationalScan message_id request.payloads with
      | some t => some t
      | none =>
        if request.payloads.length = 0 then
          some (.dead_peer_detection message_id)
        else
          none
    | .OTHER _ => none

end Transactions

namespace ImvAttestation

lemma removeFirstFileMeas_eq_none (id : Nat) (l : List FileMeasRequest)
    (h : ∀ x ∈ l, x.id ≠ id) : removeFirstFileMeas id l = none := by
  induction l with
  | nil => rfl
  | cons x xs ih =>
    have hx : x.id ≠ id := h x (List.mem_cons_self x xs)
    simp only [removeFirstFileMeas, if_neg hx,
      ih fun y hy => h y (List.mem_cons_of_mem x hy)]

lemma removeFirstFileMeas_append (l : List FileMeasRequest) (r : FileMeasRequest)
    (h : ∀ x ∈ l, x.id ≠ r.id) : removeFirstFileMeas r.id (l ++ [r]) = some (r, l) := by
  induction l with
  | nil => simp [removeFirstFileMeas]
  | cons x xs ih =>
    have hx : x.id ≠ r.id := h x (List.mem_cons_self x xs)
    simp only [List.cons_append, removeFirstFileMeas, if_neg hx, List.append_eq,
      ih fun y hy => h y (List.mem_cons_of_mem x hy)]

lemma removeFirstFileMeas_of_mem (id : Nat) (l : List FileMeasRequest)
    (h : ∃ x ∈ l, x.id = id) :
    ∃ r rest, removeFirstFileMeas id l = some (r, rest) ∧ rest.length + 1 = l.length := by
  induction l with
  | nil => simp at h
  | cons x xs ih =>
    by_cases hx : x.id = id
    · exact ⟨x, xs, by simp [removeFirstFileMeas, hx], by simp⟩
    · obtain ⟨y, hy, hyid⟩ := h
      rcases List.mem_cons.mp hy with rfl | hy'
      · exact absurd hyid hx
      · obtain ⟨r, rest, hr, hlen⟩ := ih ⟨y, hy', hyid⟩
        exact ⟨r, x :: rest, by simp [removeFirstFileMeas, hx, hr], by simp [← hlen]⟩

lemma removeFirstCompEvid_eq_none (v : Nat) (q : PtsQualifier) (n : Nat)
    (l : List CompEvidRequest) (h : ∀ x ∈ l, compEvidMatches x v q n = false) :
    removeFirstCompEvid v q n l = none := by
  induction l with
  | nil => rfl
  | cons x xs ih =>
    have hx : ¬ compEvidMatches x v q n = true := by
      simp [h x (List.mem_cons_self x xs)]
    simp only [removeFirstCompEvid, if_neg hx,
      ih fun y hy => h y (List.mem_cons_of_mem x hy)]

lemma removeFirstCompEvid_append (v : Nat) (q : PtsQualifier) (n : Nat)
    (l : List CompEvidRequest) (e : CompEvidRequest)
    (he : compEvidMatches e v q n = true)
    (h : ∀ x ∈ l, compEvidMatches x v q n = false) :
    removeFirstCompEvid v q n (l ++ [e]) = some l := by
  induction l with
  | nil => simp [removeFirstCompEvid, he]
  | cons x xs ih =>
    have hx : ¬ compEvidMatches x v q n = true := by
      simp [h x (List.mem_cons_self x xs)]
    simp only [List.cons_append, removeFirstCompEvid, if_neg hx, List.append_eq,
      ih fun y hy => h y (List.mem_cons_of_mem x hy)]

lemma check_off_file_meas_request_not_found (s : AttestationState) (id : Nat)
    (file_id0 : Int) (is_dir0 : Bool)
    (h : ∀ x ∈ s.file_meas_requests, x.id ≠ id) :
    check_off_file_meas_request s id file_id0 is_dir0 =
      { found := false, state := s, file_id := file_id0, is_dir := is_dir0 } := by
  simp [check_off_file_meas_request, removeFirstFileMeas_eq_none id _ h]

end ImvAttestation

open ImvAttestation

/-- C9: when `check_off_file_meas_request` finds no matching entry it
returns `FALSE`, the values of the `*file_id` / `*is_dir` output
parameters are the caller's prior ones (the function never wrote them),
and the whole attestation state — both registries, the id counter, the
recommendation, the evaluation, the connection and handshake states and
the error flag — is unchanged. -/
theorem check_off_file_meas_request_miss_is_frame (s : AttestationState) (id : Nat)
    (file_id0 : Int) (is_dir0 : Bool)
    (h : ∀ x ∈ s.file_meas_requests, x.id ≠ id) :
    check_off_file_meas_request s id file_id0 is_dir0 =
      { found := false, state := s, file_id := file_id0, is_dir := is_dir0 } :=
  check_off_file_meas_request_not_found s id file_id0 is_dir0 h

/-- Witness for C9 at a concrete state: one pending request with id 1,
checked off with id 7. -/
theorem check_off_file_meas_request_miss_is_frame_w :
    check_off_file_meas_request
        ((add_file_meas_request (imv_attestation_state_create 5) 3 false).2) 7 11 true =
      { found := false
        state := (add_file_meas_request (imv_attestation_state_create 5) 3 false).2
        file_id := 11
        is_dir := true } :=
  check_off_file_meas_request_miss_is_frame _ 7 11 true (by decide)

/-- C5: checking off an id with no matching pending entry returns "not
found" and leaves the registry (hence its count) unchanged; when a
matching entry exists, the call succeeds and removes exactly one entry. -/
theorem check_off_file_meas_request_correlation (s : AttestationState) (id : Nat)
    (file_id0 : Int) (is_dir0 : Bool) :
    ((∀ x ∈ s.file_meas_requests, x.id ≠ id) →
      (check_off_file_meas_request s id file_id0 is_dir0).found = false ∧
      (check_off_file_meas_request s id file_id0 is_dir0).state = s) ∧
    ((∃ x ∈ s.file_meas_requests, x.id = id) →
      (check_off_file_meas_request s id file_id0 is_dir0).found = true ∧
      get_file_meas_request_count (check_off_file_meas_request s id file_id0 is_dir0).state + 1 =
        get_file_meas_request_count s) := by
  constructor
  · intro h
    rw [check_off_file_meas_request_not_found s id file_id0 is_dir0 h]
    exact ⟨rfl, rfl⟩
  · intro h
    obtain ⟨r, rest, hr, hlen⟩ := removeFirstFileMeas_of_mem id s.file_meas_requests h
    simp [check_off_file_meas_request, hr, get_file_meas_request_count, hlen]

/-- Witness for C5: a state with one pending request (id 1); id 9 misses
and mutates nothing, id 1 hits and drops the count from 1 to 0. -/
theorem check_off_file_meas_request_correlation_w :
    ((check_off_file_meas_request
        ((add_file_meas_request (imv_attestation_state_create 0) 4 true).2) 9 0 false).found
        = false ∧
      (check_off_file_meas_request
        ((add_file_meas_request (imv_attestation_state_create 0) 4 true).2) 9 0 false).state
        = (add_file_meas_request (imv_attestation_state_create 0) 4 true).2) ∧
    ((check_off_file_meas_request
        ((add_file_meas_request (imv_attestation_state_create 0) 4 true).2) 1 0 false).found
        = true ∧
      get_file_meas_request_count
        (check_off_file_meas_request
          ((add_file_meas_request (imv_attestation_state_create 0) 4 true).2) 1 0 false).state + 1
        = get_file_meas_request_count
            ((add_file_meas_request (imv_attestation_state_create 0) 4 true).2)) :=
  ⟨(check_off_file_meas_request_correlation _ 9 0 false).1 (by decide),
   (check_off_file_meas_request_correlation _ 1 0 false).2 ⟨⟨1, 4, true⟩, by decide, rfl⟩⟩

/-- C3: adding a request with payload `(42, true)` returns an id `k`
under which a subsequent check-off succeeds, yields exactly the payload
`(42, true)`, and decreases the pending count by one — provided no
already-pending entry carries the id about to be issued (guaranteed by
the uniqueness invariant in every reachable state below the `u_int16_t`
wrap). -/
theorem add_then_check_off_round_trip (s : AttestationState)
    (file_id0 : Int) (is_dir0 : Bool)
    (h : ∀ x ∈ s.file_meas_requests, x.id ≠ (s.file_meas_request_counter + 1) % u16Mod) :
    (check_off_file_meas_request (add_file_meas_request s 42 true).2
        (add_file_meas_request s 42 true).1 file_id0 is_dir0).found = true ∧
    (check_off_file_meas_request (add_file_meas_request s 42 true).2
        (add_file_meas_request s 42 true).1 file_id0 is_dir0).file_id = 42 ∧
    (check_off_file_meas_request (add_file_meas_request s 42 true).2
        (add_file_meas_request s 42 true).1 file_id0 is_dir0).is_dir = true ∧
    get_file_meas_request_count
        (check_off_file_meas_request (add_file_meas_request s 42 true).2
          (add_file_meas_request s 42 true).1 file_id0 is_dir0).state + 1 =
      get_file_meas_request_count (add_file_meas_request s 42 true).2 := by
  have hrm :
      removeFirstFileMeas ((s.file_meas_request_counter + 1) % u16Mod)
        (s.file_meas_requests ++
          [{ id := (s.file_meas_request_counter + 1) % u16Mod, file_id := 42, is_dir := true }]) =
      some ({ id := (s.file_meas_request_counter + 1) % u16Mod, file_id := 42, is_dir := true },
        s.file_meas_requests) :=
    removeFirstFileMeas_append s.file_meas_requests
      { id := (s.file_meas_request_counter + 1) % u16Mod, file_id := 42, is_dir := true } h
  simp [add_file_meas_request, check_off_file_meas_request, hrm, get_file_meas_request_count]

/-- Witness for C3 on a fresh state. -/
theorem add_then_check_off_round_trip_w :
    (check_off_file_meas_request
        (add_file_meas_request (imv_attestation_state_create 0) 42 true).2
        (add_file_meas_request (imv_attestation_state_create 0) 42 true).1 0 false).found = true ∧
    (check_off_file_meas_request
        (add_file_meas_request (imv_attestation_state_create 0) 42 true).2
        (add_file_meas_request (imv_attestation_state_create 0) 42 true).1 0 false).file_id = 42 ∧
    (check_off_file_meas_request
        (add_file_meas_request (imv_attestation_state_create 0) 42 true).2
        (add_file_meas_request (imv_attestation_state_create 0) 42 true).1 0 false).is_dir = true ∧
    get_file_meas_request_count
        (check_off_file_meas_request
          (add_file_meas_request (imv_attestation_state_create 0) 42 true).2
          (add_file_meas_request (imv_attestation_state_create 0) 42 true).1 0 false).state + 1 =
      get_file_meas_request_count
        (add_file_meas_request (imv_attestation_state_create 0) 42 true).2 :=
  add_then_check_off_round_trip (imv_attestation_state_create 0) 0 false (by decide)

/-- C6: component-evidence correlation is by exact full-tuple match.
Starting from any state with no entry matching `(7, {1,0,2}, X)`: after
adding that tuple, checking it off succeeds and restores the previous
state (the first — here the only — fully matching entry is removed); a
second check-off of the same tuple then fails; and the scan's match
condition accepts a pending entry exactly when the vendor id, all three
qualifier fields and the component name are all equal, so a tuple
differing in any one field does not match. -/
theorem comp_evid_exact_match_round_trip (s : ImvAttestation.AttestationState) (X : Nat)
    (h : ∀ x ∈ s.comp_evid_requests, compEvidMatches x 7 ⟨1, 0, 2⟩ X = false) :
    (check_off_comp_evid_request (add_comp_evid_request s 7 ⟨1, 0, 2⟩ X) 7 ⟨1, 0, 2⟩ X).1
        = true ∧
    (check_off_comp_evid_request (add_comp_evid_request s 7 ⟨1, 0, 2⟩ X) 7 ⟨1, 0, 2⟩ X).2
        = s ∧
    (check_off_comp_evid_request s 7 ⟨1, 0, 2⟩ X).1 = false ∧
    (∀ v' : Nat, ∀ q' : ImvAttestation.PtsQualifier, ∀ n' : Nat,
      compEvidMatches { vendor_id := 7, qualifier := ⟨1, 0, 2⟩, name := X } v' q' n' = true ↔
        (v' = 7 ∧ q' = ⟨1, 0, 2⟩ ∧ n' = X)) := by
  have he : compEvidMatches { vendor_id := 7, qualifier := ⟨1, 0, 2⟩, name := X } 7 ⟨1, 0, 2⟩ X
      = true := by
    simp [compEvidMatches]
  have hrm := removeFirstCompEvid_append 7 ⟨1, 0, 2⟩ X s.comp_evid_requests
    { vendor_id := 7, qualifier := ⟨1, 0, 2⟩, name := X } he h
  have hnone := removeFirstCompEvid_eq_none 7 ⟨1, 0, 2⟩ X s.comp_evid_requests h
  refine ⟨?_, ?_, ?_, ?_⟩
  · simp [check_off_comp_evid_request, add_comp_evid_request, hrm]
  · simp [check_off_comp_evid_request, add_comp_evid_request, hrm]
  · simp [check_off_comp_evid_request, hnone]
  · intro v' q' n'
    constructor
    · intro hm
      simp only [compEvidMatches, Bool.and_eq_true, decide_eq_true_eq] at hm
      obtain ⟨⟨⟨⟨h1, h2⟩, h3⟩, h4⟩, h5⟩ := hm
      refine ⟨h1.symm, ?_, h5.symm⟩
      cases q'
      simp_all
    · rintro ⟨rfl, rfl, rfl⟩
      simp [compEvidMatches]

/-- Witness for C6 on a fresh state with component name 9. -/
theorem comp_evid_exact_match_round_trip_w :
    (check_off_comp_evid_request
        (add_comp_evid_request (imv_attestation_state_create 0) 7 ⟨1, 0, 2⟩ 9) 7 ⟨1, 0, 2⟩ 9).1
        = true ∧
    (check_off_comp_evid_request
        (add_comp_evid_request (imv_attestation_state_create 0) 7 ⟨1, 0, 2⟩ 9) 7 ⟨1, 0, 2⟩ 9).2
        = imv_attestation_state_create 0 ∧
    (check_off_comp_evid_request (imv_attestation_state_create 0) 7 ⟨1, 0, 2⟩ 9).1 = false ∧
    (∀ v' : Nat, ∀ q' : ImvAttestation.PtsQualifier, ∀ n' : Nat,
      compEvidMatches { vendor_id := 7, qualifier := ⟨1, 0, 2⟩, name := 9 } v' q' n' = true ↔
        (v' = 7 ∧ q' = ⟨1, 0, 2⟩ ∧ n' = 9)) :=
  comp_evid_exact_match_round_trip (imv_attestation_state_create 0) 9 (by decide)

namespace ImvAttestation

lemma check_off_file_state_measurement_error (s : AttestationState) (id : Nat)
    (f0 : Int) (d0 : Bool) :
    (check_off_file_meas_request s id f0 d0).state.measurement_error =
      s.measurement_error := by
  cases h : removeFirstFileMeas id s.file_meas_requests with
  | none => simp [check_off_file_meas_request, h]
  | some p => simp [check_off_file_meas_request, h]

lemma check_off_file_state_counter (s : AttestationState) (id : Nat)
    (f0 : Int) (d0 : Bool) :
    (check_off_file_meas_request s id f0 d0).state.file_meas_request_counter =
      s.file_meas_request_counter := by
  cases h : removeFirstFileMeas id s.file_meas_requests with
  | none => simp [check_off_file_meas_request, h]
  | some p => simp [check_off_file_meas_request, h]

lemma check_off_comp_state_measurement_error (s : AttestationState) (v : Nat)
    (q : PtsQualifier) (n : Nat) :
    (check_off_comp_evid_request s v q n).2.measurement_error = s.measurement_error := by
  cases h : removeFirstCompEvid v q n s.comp_evid_requests with
  | none => simp [check_off_comp_evid_request, h]
  | some p => simp [check_off_comp_evid_request, h]

lemma check_off_comp_state_counter (s : AttestationState) (v : Nat)
    (q : PtsQualifier) (n : Nat) :
    (check_off_comp_evid_request s v q n).2.file_meas_request_counter =
      s.file_meas_request_counter := by
  cases h : removeFirstCompEvid v q n s.comp_evid_requests with
  | none => simp [check_off_comp_evid_request, h]
  | some p => simp [check_off_comp_evid_request, h]

lemma applyOp_measurement_error (s : AttestationState) (op : StateOp)
    (h : s.measurement_error = true) : (applyOp s op).measurement_error = true := by
  cases op with
  | checkOffFileMeasRequest id f0 d0 =>
    rw [applyOp, check_off_file_state_measurement_error]; exact h
  | checkOffCompEvidRequest v q n =>
    rw [applyOp, check_off_comp_state_measurement_error]; exact h
  | _ =>
    simp [applyOp, change_state, set_recommendation, set_handshake_state,
      add_file_meas_request, add_comp_evid_request, set_measurement_error, h]

lemma runOps_measurement_error :
    ∀ (ops : List StateOp) (s : AttestationState), s.measurement_error = true →
      (runOps s ops).measurement_error = true
  | [], _, h => h
  | op :: ops, s, h =>
    runOps_measurement_error ops (applyOp s op) (applyOp_measurement_error s op h)

end ImvAttestation

/-- C7: the measurement-error flag is monotonic.  It is `false` on the
state built by `imv_attestation_state_create`; `set_measurement_error`
makes `get_measurement_error` return `true`; and no sequence of interface
operations applied afterwards ever makes the flag observable as `false`
again. -/
theorem measurement_error_is_monotonic :
    (∀ cid : Nat, get_measurement_error (imv_attestation_state_create cid) = false) ∧
    (∀ s : ImvAttestation.AttestationState,
      get_measurement_error (set_measurement_error s) = true) ∧
    (∀ (s : ImvAttestation.AttestationState) (ops : List ImvAttestation.StateOp),
      get_measurement_error s = true → get_measurement_error (runOps s ops) = true) :=
  ⟨fun _ => rfl, fun _ => rfl, fun _ ops h => runOps_measurement_error ops _ h⟩

/-- Witness for C7: on connection 0, the flag starts false, one set call
makes it true, and a run of further operations (including a second set
call) leaves it true. -/
theorem measurement_error_is_monotonic_w :
    get_measurement_error (imv_attestation_state_create 0) = false ∧
    get_measurement_error (set_measurement_error (imv_attestation_state_create 0)) = true ∧
    get_measurement_error
      (runOps (set_measurement_error (imv_attestation_state_create 0))
        [ImvAttestation.StateOp.addFileMeasRequest 4 false,
         ImvAttestation.StateOp.setMeasurementError,
         ImvAttestation.StateOp.checkOffFileMeasRequest 1 0 false,
         ImvAttestation.StateOp.changeState 2]) = true :=
  ⟨measurement_error_is_monotonic.1 0,
   measurement_error_is_monotonic.2.1 (imv_attestation_state_create 0),
   measurement_error_is_monotonic.2.2 (set_measurement_error (imv_attestation_state_create 0))
     [ImvAttestation.StateOp.addFileMeasRequest 4 false,
      ImvAttestation.StateOp.setMeasurementError,
      ImvAttestation.StateOp.checkOffFileMeasRequest 1 0 false,
      ImvAttestation.StateOp.changeState 2]
     (measurement_error_is_monotonic.2.1 (imv_attestation_state_create 0))⟩

/-- C10: `transaction_create` returns no transaction for any message whose
request flag is unset, and none for any request whose exchange type is
`IKE_AUTH` (which never stands alone). -/
theorem transaction_create_none_cases (m : Transactions.Message) :
    (m.get_request = false → Transactions.transaction_create m = none) ∧
    (m.get_request = true →
      m.exchange_type = Transactions.ExchangeType.IKE_AUTH →
      Transactions.transaction_create m = none) := by
  constructor
  · intro h
    simp [Transactions.transaction_create, h]
  · intro h he
    simp [Transactions.transaction_create, h, he]

/-- Witness for C10: a non-request `IKE_SA_INIT` message and an `IKE_AUTH`
request both yield no transaction. -/
theorem transaction_create_none_cases_w :
    Transactions.transaction_create
      { get_request := false, message_id := 0,
        exchange_type := Transactions.ExchangeType.IKE_SA_INIT, payloads := [] } = none ∧
    Transactions.transaction_create
      { get_request := true, message_id := 5,
        exchange_type := Transactions.ExchangeType.IKE_AUTH,
        payloads := [Transactions.Payload.otherPayload 3] } = none :=
  ⟨(transaction_create_none_cases _).1 rfl,
   (transaction_create_none_cases _).2 rfl rfl⟩

namespace ImvAttestation

lemma getReasonStringFuel_fr_step (n : Nat) :
    getReasonStringFuel (n + 1) "fr".toList = getReasonStringFuel n "fr".toList := rfl

lemma getReasonStringFuel_fr_none :
    ∀ n : Nat, getReasonStringFuel n "fr".toList = none
  | 0 => rfl
  | n + 1 => (getReasonStringFuel_fr_step n).trans (getReasonStringFuel_fr_none n)

end ImvAttestation

/-- C2: the claim says `get_reason_string` is total — terminating on every
preferred-languages input.  The loop in the source, however, never
consumes the input when the remaining text holds no comma (the failing
`extract_token` leaves `preferred_language` untouched and the fallback
only copies it into `pref_lang`), so on a final token matching no table
entry — input `"fr"` — the `while (eat_whitespace(...))` condition stays
true forever: for every fuel bound the loop is still running. -/
theorem get_reason_string_diverges_on_fr :
    ∀ n : Nat, getReasonStringFuel n "fr".toList = none :=
  getReasonStringFuel_fr_none

/-- C4: preference-order selection against the `en`/`mn`/`de` table.
`"fr, de"` resolves to the `de` entry and tag (first match in preference
order, reached with two loop iterations whatever extra fuel is given) and
`""` resolves immediately to the default `en` entry; but the claim's third
case, `"fr"`, does not return the default — the loop never terminates on
it, as witnessed by the fuel bound never sufficing. -/
theorem reason_string_preference_order :
    (∀ n : Nat, getReasonStringFuel (n + 2) "fr, de".toList = some (reasonResult reasonDe)) ∧
    (∀ n : Nat, getReasonStringFuel (n + 1) "".toList = some (reasonResult reasonEn)) ∧
    (∀ n : Nat, getReasonStringFuel n "fr".toList = none) :=
  ⟨fun _ => rfl, fun _ => rfl, getReasonStringFuel_fr_none⟩

namespace ImvAttestation

lemma dropWhile_replicate_append (p : Char → Bool) (c : Char) (hp : p c = true) :
    ∀ (j : Nat) (l : List Char),
      List.dropWhile p (List.replicate j c ++ l) = List.dropWhile p l
  | 0, l => rfl
  | j + 1, l => by
    rw [List.replicate_succ, List.cons_append, List.dropWhile_cons_of_pos hp]
    exact dropWhile_replicate_append p c hp j l

lemma extractToken_append_sep (sep : Char) :
    ∀ xs : List Char, sep ∉ xs → extractToken sep (xs ++ [sep]) = some (xs, [])
  | [], _ => by simp [extractToken]
  | x :: xs, h => by
    have hx : ¬ x = sep := fun e => h (e ▸ List.mem_cons_self x xs)
    rw [List.cons_append, extractToken, if_neg hx,
      extractToken_append_sep sep xs fun hm => h (List.mem_cons_of_mem x hm)]

lemma trimTrailingSpaces_append_spaces (xs : List Char) (k : Nat) :
    trimTrailingSpaces (xs ++ List.replicate k ' ') = trimTrailingSpaces xs := by
  unfold trimTrailingSpaces
  rw [List.reverse_append, List.reverse_replicate,
    dropWhile_replicate_append (fun c => c = ' ') ' ' (by decide)]

end ImvAttestation

/-- C8 counterexample: the trailing-trim loop of `get_reason_string`
compares only the space character, so a tab is not trimmed.  On the input
`"de\t,"` the token `"de\t"` fails to match the `de` table entry and the
call falls through to the default `en` entry, while the bare tag `"de,"`
matches the `de` entry — refuting the claim that a token consisting of a
table tag followed by any trailing whitespace (spaces or tabs) matches
the same entry as the bare tag. -/
theorem trailing_tab_prevents_match :
    getReasonStringFuel 2 "de\t,".toList = some (reasonResult reasonEn) ∧
    getReasonStringFuel 2 "de,".toList = some (reasonResult reasonDe) ∧
    reasonResult reasonEn ≠ reasonResult reasonDe :=
  ⟨rfl, rfl, by decide⟩

/-- C8 amended: each token has its leading whitespace (spaces and tabs)
skipped and its trailing spaces — the space character only, not tabs —
trimmed before comparison, so a token consisting of a table tag followed
by any number of trailing spaces matches the same entry as the bare tag:
for every leading pad of `i` spaces and `j` tabs and every `k` trailing
spaces, `"de"` so padded (and comma-terminated) resolves to the `de`
entry in one loop iteration. -/
theorem token_normalization_trims_spaces (i j k : Nat) :
    getReasonStringFuel 1
      (List.replicate i ' ' ++ List.replicate j '\t' ++ "de".toList ++
        List.replicate k ' ' ++ [',']) =
      some (reasonResult reasonDe) := by
  have hws : eatWhitespace
      (List.replicate i ' ' ++ List.replicate j '\t' ++ "de".toList ++
        List.replicate k ' ' ++ [',']) =
      'd' :: 'e' :: (List.replicate k ' ' ++ [',']) := by
    unfold eatWhitespace
    rw [List.append_assoc, List.append_assoc, List.append_assoc,
      dropWhile_replicate_append _ ' ' (by decide),
      dropWhile_replicate_append _ '\t' (by decide)]
    rw [show ("de".toList ++ (List.replicate k ' ' ++ [','])) =
      'd' :: 'e' :: (List.replicate k ' ' ++ [',']) from rfl]
    rw [List.dropWhile_cons_of_neg (by decide)]
  have hnm : (',' : Char) ∉ 'd' :: 'e' :: List.replicate k ' ' := by
    intro hm
    rcases List.mem_cons.mp hm with h | hm
    · exact absurd h (by decide)
    rcases List.mem_cons.mp hm with h | hm
    · exact absurd h (by decide)
    · exact absurd (List.eq_of_mem_replicate hm) (by decide)
  have htok : extractToken ',' ('d' :: 'e' :: (List.replicate k ' ' ++ [','])) =
      some ('d' :: 'e' :: List.replicate k ' ', []) := by
    have := extractToken_append_sep ',' ('d' :: 'e' :: List.replicate k ' ') hnm
    simpa using this
  have htrim : trimTrailingSpaces ('d' :: 'e' :: List.replicate k ' ') = ['d', 'e'] := by
    have := trimTrailingSpaces_append_spaces ['d', 'e'] k
    simpa using this
  rw [show (1 : Nat) = 0 + 1 from rfl, getReasonStringFuel]
  simp only [hws, htok, htrim, List.isEmpty_cons, Bool.false_eq_true, if_false]
  rfl

namespace ImvAttestation

lemma iterateAddIds_closed_form :
    ∀ (n : Nat) (s : AttestationState),
      iterateAddIds s n =
        (List.range n).map (fun i => (s.file_meas_request_counter + 1 + i) % u16Mod)
  | 0, _ => rfl
  | n + 1, s => by
    have ih := iterateAddIds_closed_form n (add_file_meas_request s 0 false).2
    show (add_file_meas_request s 0 false).1 ::
        iterateAddIds (add_file_meas_request s 0 false).2 n = _
    rw [ih, List.range_succ_eq_map, List.map_cons, List.map_map]
    refine congrArg₂ List.cons ?_ (List.map_congr_left fun i _ => ?_)
    · show (s.file_meas_request_counter + 1) % u16Mod =
        (s.file_meas_request_counter + 1 + 0) % u16Mod
      rw [Nat.add_zero]
    · show ((s.file_meas_request_counter + 1) % u16Mod + 1 + i) % u16Mod =
        (s.file_meas_request_counter + 1 + (i + 1)) % u16Mod
    
      simp only [u16Mod]
      omega

lemma runOpsIds_cons (s : AttestationState) (op : StateOp) (ops : List StateOp) :
    (∃ f d, op = .addFileMeasRequest f d ∧
      runOpsIds s (op :: ops) =
        (add_file_meas_request s f d).1 :: runOpsIds (applyOp s op) ops) ∨
    (runOpsIds s (op :: ops) = runOpsIds (applyOp s op) ops ∧
      (applyOp s op).file_meas_request_counter = s.file_meas_request_counter ∧
      countAdds (op :: ops) = countAdds ops) := by
  cases op with
  | addFileMeasRequest f d => exact Or.inl ⟨f, d, rfl, rfl⟩
  | checkOffFileMeasRequest id f0 d0 =>
    exact Or.inr ⟨rfl, check_off_file_state_counter s id f0 d0, rfl⟩
  | checkOffCompEvidRequest v q n =>
    exact Or.inr ⟨rfl, check_off_comp_state_counter s v q n, rfl⟩
  | _ => exact Or.inr ⟨rfl, rfl, rfl⟩

lemma runOpsIds_bounded (ops : List StateOp) :
    ∀ s : AttestationState,
      s.file_meas_request_counter + countAdds ops ≤ 65535 →
      (∀ i ∈ runOpsIds s ops, s.file_meas_request_counter < i) ∧
      List.Pairwise (· < ·) (runOpsIds s ops) := by
  induction ops with
  | nil => exact fun s _ => ⟨fun i hi => absurd hi (List.not_mem_nil i), List.Pairwise.nil⟩
  | cons op ops ih =>
    intro s h
    rcases runOpsIds_cons s op ops with ⟨f, d, rfl, hrun⟩ | ⟨hrun, hctr, hcnt⟩
    · have hcnt : countAdds (StateOp.addFileMeasRequest f d :: ops) = countAdds ops + 1 := rfl
      rw [hcnt] at h
      have hmod : (s.file_meas_request_counter + 1) % u16Mod =
          s.file_meas_request_counter + 1 :=
        Nat.mod_eq_of_lt (by simp only [u16Mod]; omega)
      have hid : (add_file_meas_request s f d).1 = s.file_meas_request_counter + 1 := by
        simp [add_file_meas_request, hmod]
      have hs' : (applyOp s (StateOp.addFileMeasRequest f d)).file_meas_request_counter =
          s.file_meas_request_counter + 1 := by
        simp [applyOp, add_file_meas_request, hmod]
      have ihs := ih (applyOp s (StateOp.addFileMeasRequest f d)) (by rw [hs']; omega)
      rw [hrun, hid]
      constructor
      · intro i hi
        rcases List.mem_cons.mp hi with rfl | hi'
        · omega
        · have hlt := ihs.1 i hi'
          rw [hs'] at hlt
          omega
      · refine List.Pairwise.cons (fun i hi => ?_) ihs.2
        have hlt := ihs.1 i hi
        rw [hs'] at hlt
        omega
    · rw [hcnt] at h
      have ihs := ih (applyOp s op) (by rw [hctr]; omega)
      rw [hrun]
      refine ⟨fun i hi => ?_, ihs.2⟩
      have hlt := ihs.1 i hi
      rw [hctr] at hlt
      exact hlt

end ImvAttestation

/-- C1 counterexample: the id counter is a `u_int16_t`, so the claim's
"all returned ids are pairwise distinct and non-zero" fails for long
enough call sequences: the 65536-th `add_file_meas_request` call on a
freshly created state returns the id 0 — the counter has wrapped. -/
theorem file_meas_ids_wrap_to_zero :
    (0 : Nat) ∈ iterateAddIds (imv_attestation_state_create 7) 65536 := by
  rw [iterateAddIds_closed_form]
  refine List.mem_map.mpr ⟨65535, List.mem_range.mpr (by decide), ?_⟩
  decide

/-- C1 amended: for every sequence of interface calls on one freshly
created state object containing at most 65535 (= 2^16 - 1)
`add_file_measurement_request` calls — the most before the `u_int16_t`
counter wraps — the returned ids are strictly increasing in issuance
order (hence pairwise distinct) and non-zero; check-off calls in between
never make an id reusable, as the counter is not touched by them. -/
theorem file_meas_ids_unique_below_wrap (cid : Nat) (ops : List ImvAttestation.StateOp)
    (h : countAdds ops ≤ 65535) :
    List.Pairwise (· < ·) (runOpsIds (imv_attestation_state_create cid) ops) ∧
    ∀ i ∈ runOpsIds (imv_attestation_state_create cid) ops, i ≠ 0 := by
  have h0 : (imv_attestation_state_create cid).file_meas_request_counter = 0 := rfl
  have hb := runOpsIds_bounded ops (imv_attestation_state_create cid) (by rw [h0]; omega)
  refine ⟨hb.2, fun i hi => ?_⟩
  have hlt := hb.1 i hi
  rw [h0] at hlt
  omega

/-- Witness for C1 (amended): a short mixed trace — two adds around a
check-off and an error-flag set — yields the ids 1 and 2: increasing and
non-zero. -/
theorem file_meas_ids_unique_below_wrap_w :
    List.Pairwise (· < ·)
      (runOpsIds (imv_attestation_state_create 0)
        [ImvAttestation.StateOp.addFileMeasRequest 4 false,
         ImvAttestation.StateOp.checkOffFileMeasRequest 1 0 false,
         ImvAttestation.StateOp.addFileMeasRequest 4 true,
         ImvAttestation.StateOp.setMeasurementError]) ∧
    ∀ i ∈ runOpsIds (imv_attestation_state_create 0)
        [ImvAttestation.StateOp.addFileMeasRequest 4 false,
         ImvAttestation.StateOp.checkOffFileMeasRequest 1 0 false,
         ImvAttestation.StateOp.addFileMeasRequest 4 true,
         ImvAttestation.StateOp.setMeasurementError], i ≠ 0 :=
  file_meas_ids_unique_below_wrap 0
    [ImvAttestation.StateOp.addFileMeasRequest 4 false,
     ImvAttestation.StateOp.checkOffFileMeasRequest 1 0 false,
     ImvAttestation.StateOp.addFileMeasRequest 4 true,
     ImvAttestation.StateOp.setMeasurementError]
    (by decide)
